import Mathlib

/-!
Verification of the rwlock performance-schema instrumentation interface
(`include/mysql/components/services/psi_rwlock_bits.h`) and of the
instrumentation engine its specification describes.

The header under verification declares the ABI only: the operation
enumeration, the info / locker-state struct layouts, and the function-pointer
types of the entry points.  The engine behind those entry points (the key
registry, the locker state machine and the wait aggregator) is not part of
the header; those definitions below are modelled from the specification and
are marked `Modelled from the spec:` in their doc comments.
-/

namespace PsiRwlock

/-- From the source (`enum PSI_rwlock_operation`, psi_rwlock_bits.h lines
70-95): operation performed on an instrumented rwlock. -/
inductive PSI_rwlock_operation where
  | READLOCK
  | WRITELOCK
  | TRYREADLOCK
  | TRYWRITELOCK
  | SHAREDLOCK
  | SHAREDEXCLUSIVELOCK
  | EXCLUSIVELOCK
  | TRYSHAREDLOCK
  | TRYSHAREDEXCLUSIVELOCK
  | TRYEXCLUSIVELOCK
deriving DecidableEq, Repr

/-- The stable numeric value of each enumerator, as written in the source. -/
def PSI_rwlock_operation.toNat : PSI_rwlock_operation → Nat
  | .READLOCK => 0
  | .WRITELOCK => 1
  | .TRYREADLOCK => 2
  | .TRYWRITELOCK => 3
  | .SHAREDLOCK => 4
  | .SHAREDEXCLUSIVELOCK => 5
  | .EXCLUSIVELOCK => 6
  | .TRYSHAREDLOCK => 7
  | .TRYSHAREDEXCLUSIVELOCK => 8
  | .TRYEXCLUSIVELOCK => 9

/-- The complete list of enumerators, in declaration order. -/
def PSI_rwlock_operation.all : List PSI_rwlock_operation :=
  [.READLOCK, .WRITELOCK, .TRYREADLOCK, .TRYWRITELOCK, .SHAREDLOCK,
   .SHAREDEXCLUSIVELOCK, .EXCLUSIVELOCK, .TRYSHAREDLOCK,
   .TRYSHAREDEXCLUSIVELOCK, .TRYEXCLUSIVELOCK]

/-- From the source (`struct PSI_rwlock_info_v1`, lines 102-122): one
registration record.  The C struct holds a pointer `m_key` to the
caller-owned key slot; in this functional embedding `register_rwlock`
returns the records with the key slot filled in, so `m_key` carries the
slot's value.  Pointers to C strings are modelled as `String`. -/
structure PSI_rwlock_info_v1 where
  m_key : Nat
  m_name : String
  m_flags : Nat
  m_volatility : Int
  m_documentation : String
deriving DecidableEq, Repr

/-- Modelled from the spec (section 4.1 Key Registry): a process-wide map
from (category, name) pairs to small integer keys.  Keys are assigned
sequentially starting at 1 (0 is reserved for "disabled"); the pair stored
at position `i` of `m_entries` owns key `i + 1`.  `m_max` is the capacity
bound whose exhaustion makes registration degrade to key 0. -/
structure KeyRegistry where
  m_entries : List (String × String)
  m_max : Nat
deriving DecidableEq, Repr

/-- Look up an entry in the registry's list, keys starting at `i + 1`. -/
def lookupFrom : List (String × String) → String → String → Nat → Option Nat
  | [], _, _, _ => none
  | e :: rest, cat, name, i =>
      if e = (cat, name) then some (i + 1) else lookupFrom rest cat name (i + 1)

/-- The key assigned to `(cat, name)`, if any. -/
def KeyRegistry.lookup (r : KeyRegistry) (cat name : String) : Option Nat :=
  lookupFrom r.m_entries cat name 0

/-- Modelled from the spec (section 4.1): register one (category, name)
pair.  Idempotent: an already-seen pair gets its existing key back and the
registry is unchanged.  A previously-unseen pair gets the next sequential
nonzero key if capacity allows; on exhaustion the registry is unchanged and
the returned key is 0 (instrumentation disabled) rather than an error. -/
def registerOne (r : KeyRegistry) (cat name : String) : KeyRegistry × Nat :=
  match r.lookup cat name with
  | some k => (r, k)
  | none =>
      if r.m_entries.length < r.m_max then
        ({ r with m_entries := r.m_entries ++ [(cat, name)] },
         r.m_entries.length + 1)
      else
        (r, 0)

/-- Modelled from the spec (entry point `register(category, info[], count)`
of `register_rwlock_v1_t`): registers every info record of the array under
the given category, writing the assigned key back through each record's key
slot.  Returns the updated registry and the records with their key slots
filled in. -/
def register_rwlock (r : KeyRegistry) (cat : String) :
    List PSI_rwlock_info_v1 → KeyRegistry × List PSI_rwlock_info_v1
  | [] => (r, [])
  | info :: rest =>
      let p := registerOne r cat info.m_name
      let q := register_rwlock p.1 cat rest
      (q.1, { info with m_key := p.2 } :: q.2)

/-- Modelled from the spec (section 3, AggregateStats): the rolling counters
of one aggregate bucket: wait count, cumulative wait duration, maximum wait
duration. -/
structure AggregateStats where
  m_count : Nat
  m_sum : Nat
  m_max : Nat
deriving DecidableEq, Repr

/-- A fresh, empty bucket. -/
def AggregateStats.init : AggregateStats := ⟨0, 0, 0⟩

/-- Modelled from the spec (section 4.4 update rule): fold one sample into a
bucket - increment count, add to cumulative sum, compare-and-raise the
running maximum. -/
def AggregateStats.record (s : AggregateStats) (elapsed : Nat) : AggregateStats :=
  { m_count := s.m_count + 1
    m_sum := s.m_sum + elapsed
    m_max := Nat.max s.m_max elapsed }

/-- The per-instance statistics, partitioned by operation kind and by
outcome (`true` = success, `false` = timed-out/failed). -/
def StatsMap : Type := PSI_rwlock_operation → Bool → AggregateStats

/-- All buckets empty. -/
def StatsMap.init : StatsMap := fun _ _ => AggregateStats.init

/-- Modelled from the spec (section 4.4): route one sample into the bucket
selected by (operation kind, success/failure); every other bucket is left
unchanged. -/
def StatsMap.record (m : StatsMap) (op : PSI_rwlock_operation) (succ : Bool)
    (elapsed : Nat) : StatsMap :=
  fun op' succ' =>
    if op' = op ∧ succ' = succ then (m op succ).record elapsed else m op' succ'

/-- Modelled from the spec (section 3, LockInstance): one live instrumented
rwlock: its key, the opaque identity of the real lock it shadows, the
per-instance enable flag of the Disable/Flag Policy, and its statistics
block.  This is the engine-side object behind the opaque `struct
PSI_rwlock` of the header. -/
structure PSI_rwlock where
  m_key : Nat
  m_identity : Nat
  m_enabled : Bool
  m_stats : StatsMap

/-- Modelled from the spec (entry point `create_instance(key, identity)` of
`init_rwlock_v1_t`): always returns a usable instance; with key 0 the
instance is a no-op sentinel (instrumentation disabled). -/
def init_rwlock (key : Nat) (identity : Nat) : PSI_rwlock :=
  { m_key := key
    m_identity := identity
    m_enabled := decide (key ≠ 0)
    m_stats := StatsMap.init }

/-- Modelled from the spec (entry point `destroy_instance` of
`destroy_rwlock_v1_t`): ends the instance's lifecycle; the engine holds no
resource beyond the caller-owned record, so destruction is total and cannot
fail. -/
def destroy_rwlock (_rwlock : PSI_rwlock) : Unit := ()

/-- Modelled from the spec (section 4.4 and out-of-scope note): the
injected timer family.  `m_timers id t` is the tick value the timer
function with identity `id` returns at real instant `t` (a C function
pointer is modelled by its identity `id`); `m_current` is the globally
configured timer identity at this moment. -/
structure TimerEnv where
  m_timers : Nat → Nat → Nat
  m_current : Nat

/-- From the source (`struct PSI_rwlock_locker_state_v1`, lines 135-152):
state data storage for one in-flight wait attempt.  `m_rwlock` and
`m_thread` are back-references modelled by identities; `m_timer` holds the
identity of the timer function pointer captured at start. -/
structure PSI_rwlock_locker_state_v1 where
  m_flags : Nat
  m_operation : PSI_rwlock_operation
  m_rwlock : Nat
  m_thread : Nat
  m_timer_start : Nat
  m_timer : Nat
  m_wait : Nat
deriving DecidableEq, Repr

/-- Modelled from the spec (section 4.3): the explicit phases of the locker
state machine; IDLE is implicit (the state struct uninitialized). -/
inductive LockerPhase where
  | WAITING
  | COMPLETED_SUCCESS
  | COMPLETED_FAILURE
deriving DecidableEq, Repr

/-- Modelled from the spec (section 4.3): a live locker: the caller-provided
state storage plus the engine's phase of the state machine. -/
structure Locker where
  state : PSI_rwlock_locker_state_v1
  phase : LockerPhase
deriving DecidableEq, Repr

/-- Modelled from the spec (entry point `start_read_wait` of
`start_rwlock_rdwait_v1_t`): if the instance's instrumentation is disabled,
return the no-op sentinel (NULL locker, modelled as `none`) and do no work.
Otherwise record the operation kind, capture the current timer's value and
the timer function itself into the locker state, and enter WAITING. -/
def start_rwlock_rdwait (env : TimerEnv) (now : Nat) (rwlock : PSI_rwlock)
    (op : PSI_rwlock_operation) (thread : Nat) : Option Locker :=
  if rwlock.m_enabled then
    some
      { state :=
          { m_flags := 0
            m_operation := op
            m_rwlock := rwlock.m_identity
            m_thread := thread
            m_timer_start := env.m_timers env.m_current now
            m_timer := env.m_current
            m_wait := 0 }
        phase := .WAITING }
  else
    none

/-- Modelled from the spec: the write-wait start entry point
(`start_rwlock_wrwait_v1_t`); same state shape as the read-wait start. -/
def start_rwlock_wrwait (env : TimerEnv) (now : Nat) (rwlock : PSI_rwlock)
    (op : PSI_rwlock_operation) (thread : Nat) : Option Locker :=
  start_rwlock_rdwait env now rwlock op thread

/-- Modelled from the spec (entry point `end_read_wait` of
`end_rwlock_rdwait_v1_t`): on the sentinel locker, do nothing.  On a live
locker, compute `elapsed = timer() - state.m_timer_start` with the timer
function captured in the locker's own state, route the sample into the
bucket selected by the locker's recorded operation kind and the result code
(`rc = 0` is success), and complete the state machine. -/
def end_rwlock_rdwait (env : TimerEnv) (now : Nat) (locker : Option Locker)
    (rc : Int) (rwlock : PSI_rwlock) : PSI_rwlock × Option Locker :=
  match locker with
  | none => (rwlock, none)
  | some l =>
      let elapsed := env.m_timers l.state.m_timer now - l.state.m_timer_start
      ({ rwlock with
          m_stats :=
            rwlock.m_stats.record l.state.m_operation (decide (rc = 0)) elapsed },
       some { l with
                phase :=
                  if rc = 0 then .COMPLETED_SUCCESS else .COMPLETED_FAILURE })

/-- Modelled from the spec: the write-wait end entry point
(`end_rwlock_wrwait_v1_t`); identical update discipline, the bucket being
selected by the operation kind recorded in the locker. -/
def end_rwlock_wrwait (env : TimerEnv) (now : Nat) (locker : Option Locker)
    (rc : Int) (rwlock : PSI_rwlock) : PSI_rwlock × Option Locker :=
  end_rwlock_rdwait env now locker rc rwlock

/-- Modelled from the spec (entry point `notify_unlock` of
`unlock_rwlock_v1_t`): notifies the engine of lock release; hold-time
accounting is out of the specified scope, so the visible aggregate state is
unchanged; the call is total and cannot fail. -/
def unlock_rwlock (rwlock : PSI_rwlock) : PSI_rwlock := rwlock

/-- One completed end call, as seen by the aggregator: the locker it
completes, the result code passed, and the real instant of the call. -/
structure EndCall where
  locker : Locker
  rc : Int
  now : Nat

/-- Modelled from the spec (section 5): a sequence of completed end calls
on one instance.  Because every counter update is atomic, any concurrent
execution of N threads' end calls is observationally one interleaving,
i.e. one list of end calls applied in order. -/
def end_many (env : TimerEnv) (rwlock : PSI_rwlock) :
    List EndCall → PSI_rwlock
  | [] => rwlock
  | c :: rest =>
      end_many env (end_rwlock_rdwait env c.now (some c.locker) c.rc rwlock).1 rest

/-- Does this end call route into the bucket `(op, succ)`? -/
def routesTo (op : PSI_rwlock_operation) (succ : Bool) (c : EndCall) : Bool :=
  decide (c.locker.state.m_operation = op ∧ decide (c.rc = 0) = succ)

/-- The elapsed duration one end call contributes, computed with the timer
captured in the locker's state. -/
def elapsedOf (env : TimerEnv) (c : EndCall) : Nat :=
  env.m_timers c.locker.state.m_timer c.now - c.locker.state.m_timer_start

lemma lookupFrom_pos (l : List (String × String)) (cat name : String) :
    ∀ (i k : Nat), lookupFrom l cat name i = some k → i < k := by
  induction l with
  | nil => intro i k h; simp [lookupFrom] at h
  | cons e rest ih =>
      intro i k h
      by_cases he : e = (cat, name)
      · simp [lookupFrom, he] at h
        omega
      · simp [lookupFrom, he] at h
        have := ih (i + 1) k h
        omega

lemma lookupFrom_append_of_some (l l2 : List (String × String))
    (cat name : String) : ∀ (i k : Nat), lookupFrom l cat name i = some k →
    lookupFrom (l ++ l2) cat name i = some k := by
  induction l with
  | nil => intro i k h; simp [lookupFrom] at h
  | cons e rest ih =>
      intro i k h
      by_cases he : e = (cat, name)
      · simp [lookupFrom, he] at h ⊢
        exact h
      · simp [lookupFrom, he] at h ⊢
        exact ih (i + 1) k h

lemma lookupFrom_append_self (l : List (String × String)) (cat name : String) :
    ∀ (i : Nat), lookupFrom l cat name i = none →
    lookupFrom (l ++ [(cat, name)]) cat name i = some (i + l.length + 1) := by
  induction l with
  | nil => intro i _; simp [lookupFrom]
  | cons e rest ih =>
      intro i h
      by_cases he : e = (cat, name)
      · simp [lookupFrom, he] at h
      · simp [lookupFrom, he] at h ⊢
        rw [ih (i + 1) h]
        congr 1
        omega

lemma registerOne_assigns (r : KeyRegistry) (cat n : String)
    (h : r.m_entries.length < r.m_max ∨ (r.lookup cat n).isSome) :
    (registerOne r cat n).2 ≠ 0 ∧
    (registerOne r cat n).1.lookup cat n = some (registerOne r cat n).2 := by
  cases hl : r.lookup cat n with
  | some k =>
      have hk := lookupFrom_pos r.m_entries cat n 0 k hl
      constructor
      · simp [registerOne, hl]
        omega
      · simp [registerOne, hl]
  | none =>
      rcases h with hcap | hsome
      · constructor
        · simp [registerOne, hl, hcap]
        · simp only [registerOne, hl, hcap, if_true]
          show lookupFrom (r.m_entries ++ [(cat, n)]) cat n 0 = _
          rw [lookupFrom_append_self r.m_entries cat n 0 hl]
          simp
      · rw [hl] at hsome
        simp at hsome

lemma registerOne_of_found (r : KeyRegistry) (cat n : String) (k : Nat)
    (h : r.lookup cat n = some k) : registerOne r cat n = (r, k) := by
  simp [registerOne, h]

lemma registerOne_preserves (r : KeyRegistry) (cat n c' n' : String) (k' : Nat)
    (h : r.lookup c' n' = some k') :
    (registerOne r cat n).1.lookup c' n' = some k' := by
  cases hl : r.lookup cat n with
  | some k => simp [registerOne, hl]; exact h
  | none =>
      by_cases hcap : r.m_entries.length < r.m_max
      · simp only [registerOne, hl, hcap, if_true]
        show lookupFrom (r.m_entries ++ [(cat, n)]) c' n' 0 = _
        exact lookupFrom_append_of_some r.m_entries [(cat, n)] c' n' 0 k' h
      · simp [registerOne, hl, hcap]
        exact h

lemma stats_record_point (m : StatsMap) (op : PSI_rwlock_operation)
    (succ : Bool) (e : Nat) (op' : PSI_rwlock_operation) (succ' : Bool) :
    StatsMap.record m op succ e op' succ' =
      if op' = op ∧ succ' = succ then (m op succ).record e else m op' succ' := rfl

lemma end_rdwait_some_fst (env : TimerEnv) (now : Nat) (l : Locker) (rc : Int)
    (rwlock : PSI_rwlock) :
    (end_rwlock_rdwait env now (some l) rc rwlock).1 =
      { rwlock with
          m_stats :=
            rwlock.m_stats.record l.state.m_operation (decide (rc = 0))
              (env.m_timers l.state.m_timer now - l.state.m_timer_start) } := rfl

lemma end_step_stats (env : TimerEnv) (now : Nat) (l : Locker) (rc : Int)
    (rwlock : PSI_rwlock) (op : PSI_rwlock_operation) (succ : Bool) :
    ((end_rwlock_rdwait env now (some l) rc rwlock).1).m_stats op succ =
      if op = l.state.m_operation ∧ succ = decide (rc = 0) then
        (rwlock.m_stats l.state.m_operation (decide (rc = 0))).record
          (env.m_timers l.state.m_timer now - l.state.m_timer_start)
      else
        rwlock.m_stats op succ := rfl

lemma end_many_cons (env : TimerEnv) (rwlock : PSI_rwlock) (c : EndCall)
    (rest : List EndCall) :
    end_many env rwlock (c :: rest) =
      end_many env (end_rwlock_rdwait env c.now (some c.locker) c.rc rwlock).1
        rest := rfl

/-- A concrete timer environment for instantiations: timer 0 is the
identity clock. -/
def sampleEnv : TimerEnv := { m_timers := fun _ t => t, m_current := 0 }

/-- A second environment: same timer family, different configured timer. -/
def sampleEnv2 : TimerEnv := { m_timers := fun _ t => t, m_current := 3 }

/-- A concrete enabled instance. -/
def sampleInstance : PSI_rwlock := init_rwlock 1 5

/-- A concrete in-flight locker: read-lock wait started at tick 3. -/
def sampleLocker : Locker :=
  { state :=
      { m_flags := 0
        m_operation := .READLOCK
        m_rwlock := 5
        m_thread := 1
        m_timer_start := 3
        m_timer := 0
        m_wait := 0 }
    phase := .WAITING }

/-- A second concrete in-flight locker: write-lock wait started at tick 2. -/
def sampleLocker2 : Locker :=
  { state :=
      { m_flags := 0
        m_operation := .WRITELOCK
        m_rwlock := 5
        m_thread := 2
        m_timer_start := 2
        m_timer := 0
        m_wait := 0 }
    phase := .WAITING }

/-- C8: the operation enumeration has exactly the ten enumerators with the
stable numeric values READLOCK=0, WRITELOCK=1, TRYREADLOCK=2,
TRYWRITELOCK=3, SHAREDLOCK=4, SHAREDEXCLUSIVELOCK=5, EXCLUSIVELOCK=6,
TRYSHAREDLOCK=7, TRYSHAREDEXCLUSIVELOCK=8, TRYEXCLUSIVELOCK=9, no two of
which share a value (the value list is duplicate-free and every operation
appears in it). -/
theorem operation_enum_values :
    PSI_rwlock_operation.all.map PSI_rwlock_operation.toNat =
      [0, 1, 2, 3, 4, 5, 6, 7, 8, 9] ∧
    (PSI_rwlock_operation.all.map PSI_rwlock_operation.toNat).Nodup ∧
    ∀ a : PSI_rwlock_operation, a ∈ PSI_rwlock_operation.all := by
  refine ⟨by decide, by decide, ?_⟩
  intro a
  cases a <;> simp [PSI_rwlock_operation.all]

/-- C1: a completed end call routes its sample into exactly the bucket
selected by the operation kind recorded in that locker's own state and the
result code passed to end (`rc = 0` is success); every other bucket - in
particular any bucket belonging to the operation kind or result of another
in-flight locker - is left unchanged.  Both end entry points follow the
same discipline. -/
theorem end_routes_by_locker_state (env : TimerEnv) (now : Nat) (l : Locker)
    (rc : Int) (rwlock : PSI_rwlock) :
    ((end_rwlock_rdwait env now (some l) rc rwlock).1).m_stats
        l.state.m_operation (decide (rc = 0)) =
      (rwlock.m_stats l.state.m_operation (decide (rc = 0))).record
        (env.m_timers l.state.m_timer now - l.state.m_timer_start) ∧
    (∀ op' succ', op' ≠ l.state.m_operation ∨ succ' ≠ decide (rc = 0) →
      ((end_rwlock_rdwait env now (some l) rc rwlock).1).m_stats op' succ' =
        rwlock.m_stats op' succ') ∧
    ((end_rwlock_wrwait env now (some l) rc rwlock).1).m_stats
        l.state.m_operation (decide (rc = 0)) =
      (rwlock.m_stats l.state.m_operation (decide (rc = 0))).record
        (env.m_timers l.state.m_timer now - l.state.m_timer_start) ∧
    ∀ op' succ', op' ≠ l.state.m_operation ∨ succ' ≠ decide (rc = 0) →
      ((end_rwlock_wrwait env now (some l) rc rwlock).1).m_stats op' succ' =
        rwlock.m_stats op' succ' := by
  have hsame :
      ((end_rwlock_rdwait env now (some l) rc rwlock).1).m_stats
          l.state.m_operation (decide (rc = 0)) =
        (rwlock.m_stats l.state.m_operation (decide (rc = 0))).record
          (env.m_timers l.state.m_timer now - l.state.m_timer_start) := by
    rw [end_step_stats]
    simp
  have hother : ∀ op' succ', op' ≠ l.state.m_operation ∨ succ' ≠ decide (rc = 0) →
      ((end_rwlock_rdwait env now (some l) rc rwlock).1).m_stats op' succ' =
        rwlock.m_stats op' succ' := by
    intro op' succ' h
    rw [end_step_stats]
    have hn : ¬(op' = l.state.m_operation ∧ succ' = decide (rc = 0)) := by
      tauto
    rw [if_neg hn]
  exact ⟨hsame, hother, hsame, hother⟩

/-- Witness for C1 at concrete inputs: the successful read sample does not
touch the write-success bucket. -/
theorem end_routes_by_locker_state_w :
    ((end_rwlock_rdwait sampleEnv 7 (some sampleLocker) 0 sampleInstance).1).m_stats
        PSI_rwlock_operation.WRITELOCK true =
      sampleInstance.m_stats PSI_rwlock_operation.WRITELOCK true :=
  (end_routes_by_locker_state sampleEnv 7 sampleLocker 0 sampleInstance).2.1
    PSI_rwlock_operation.WRITELOCK true (Or.inl (by decide))

/-- C2: on an instance whose instrumentation is off - its enable flag is
false, in particular any instance created with key 0 - both start entry
points return the no-op sentinel (`none`, the NULL locker), and an end call
on the sentinel leaves the instance, hence every aggregate counter,
unchanged. -/
theorem disabled_instance_no_op (env : TimerEnv) (now now2 : Nat)
    (rwlock : PSI_rwlock) (op : PSI_rwlock_operation) (thread : Nat)
    (rc : Int) (ident : Nat) (h : rwlock.m_enabled = false) :
    start_rwlock_rdwait env now rwlock op thread = none ∧
    start_rwlock_wrwait env now rwlock op thread = none ∧
    end_rwlock_rdwait env now2 none rc rwlock = (rwlock, none) ∧
    end_rwlock_wrwait env now2 none rc rwlock = (rwlock, none) ∧
    (init_rwlock 0 ident).m_enabled = false ∧
    start_rwlock_rdwait env now (init_rwlock 0 ident) op thread = none := by
  refine ⟨?_, ?_, rfl, rfl, rfl, ?_⟩
  · simp [start_rwlock_rdwait, h]
  · simp [start_rwlock_wrwait, start_rwlock_rdwait, h]
  · simp [start_rwlock_rdwait, init_rwlock]

/-- Witness for C2 at concrete inputs: start on a key-0 instance returns
the sentinel. -/
theorem disabled_instance_no_op_w :
    start_rwlock_rdwait sampleEnv 0 (init_rwlock 0 9) .READLOCK 1 = none :=
  (disabled_instance_no_op sampleEnv 0 0 (init_rwlock 0 9) .READLOCK 1 0 9
    (by decide)).1

/-- C4: an end call on a live locker with a failing result code still
completes the state machine with a COMPLETED_FAILURE transition, for both
end entry points, and the failed attempt is counted in the failure bucket
of the locker's recorded operation. -/
theorem end_failure_still_counted (env : TimerEnv) (now : Nat) (l : Locker)
    (rc : Int) (rwlock : PSI_rwlock) (h : rc ≠ 0) :
    (end_rwlock_rdwait env now (some l) rc rwlock).2 =
      some { l with phase := .COMPLETED_FAILURE } ∧
    (end_rwlock_wrwait env now (some l) rc rwlock).2 =
      some { l with phase := .COMPLETED_FAILURE } ∧
    (((end_rwlock_rdwait env now (some l) rc rwlock).1).m_stats
        l.state.m_operation false).m_count =
      (rwlock.m_stats l.state.m_operation false).m_count + 1 := by
  have hd : decide (rc = 0) = false := decide_eq_false h
  refine ⟨by simp [end_rwlock_rdwait, h], ?_, ?_⟩
  · simp [end_rwlock_wrwait, end_rwlock_rdwait, h]
  · rw [end_step_stats]
    simp [hd, AggregateStats.record]

/-- Witness for C4 at concrete inputs: a failing try-read wait transitions
to COMPLETED_FAILURE. -/
theorem end_failure_still_counted_w :
    (end_rwlock_rdwait sampleEnv 7 (some sampleLocker) 1 sampleInstance).2 =
      some { sampleLocker with phase := .COMPLETED_FAILURE } :=
  (end_failure_still_counted sampleEnv 7 sampleLocker 1 sampleInstance
    (by decide)).1

/-- C3: registration is idempotent per (category, name).  Provided the
first registration can assign a key (capacity left, or the pair already
seen), both calls yield the same nonzero key, written through the record's
key slot, the second call leaves the registry unchanged, and every key
already assigned before the first call is untouched by it. -/
theorem register_rwlock_idempotent (r : KeyRegistry) (cat : String)
    (info info2 : PSI_rwlock_info_v1) (hname : info2.m_name = info.m_name)
    (hcap : r.m_entries.length < r.m_max ∨ (r.lookup cat info.m_name).isSome) :
    ∃ k, k ≠ 0 ∧
      register_rwlock r cat [info] =
        ((registerOne r cat info.m_name).1, [{ info with m_key := k }]) ∧
      register_rwlock (registerOne r cat info.m_name).1 cat [info2] =
        ((registerOne r cat info.m_name).1, [{ info2 with m_key := k }]) ∧
      ∀ c n k', r.lookup c n = some k' →
        (registerOne r cat info.m_name).1.lookup c n = some k' := by
  obtain ⟨hk0, hlook⟩ := registerOne_assigns r cat info.m_name hcap
  refine ⟨(registerOne r cat info.m_name).2, hk0, rfl, ?_, ?_⟩
  · have h2 :
        registerOne (registerOne r cat info.m_name).1 cat info2.m_name =
          ((registerOne r cat info.m_name).1,
           (registerOne r cat info.m_name).2) := by
      rw [hname]
      exact registerOne_of_found _ cat info.m_name _ hlook
    simp [register_rwlock, h2]
  · intro c n k' h
    exact registerOne_preserves r cat info.m_name c n k' h

/-- Witness for C3 at concrete inputs: two registrations of the same name
in an empty registry of capacity 4. -/
theorem register_rwlock_idempotent_w :
    ∃ k, k ≠ 0 ∧
      register_rwlock ⟨[], 4⟩ "sql" [⟨0, "LOCK_a", 0, 0, "da"⟩] =
        ((registerOne ⟨[], 4⟩ "sql" "LOCK_a").1,
         [{ (⟨0, "LOCK_a", 0, 0, "da"⟩ : PSI_rwlock_info_v1) with m_key := k }]) ∧
      register_rwlock (registerOne ⟨[], 4⟩ "sql" "LOCK_a").1 "sql"
          [⟨0, "LOCK_a", 3, 1, "db"⟩] =
        ((registerOne ⟨[], 4⟩ "sql" "LOCK_a").1,
         [{ (⟨0, "LOCK_a", 3, 1, "db"⟩ : PSI_rwlock_info_v1) with m_key := k }]) ∧
      ∀ c n k', KeyRegistry.lookup ⟨[], 4⟩ c n = some k' →
        (registerOne ⟨[], 4⟩ "sql" "LOCK_a").1.lookup c n = some k' :=
  register_rwlock_idempotent ⟨[], 4⟩ "sql" ⟨0, "LOCK_a", 0, 0, "da"⟩
    ⟨0, "LOCK_a", 3, 1, "db"⟩ rfl (Or.inl (by decide))

/-- C7: no entry point has a fatal error path.  Key-registry exhaustion on
a new name degrades to key 0 with the registry unchanged; creating an
instance with key 0 yields a usable disabled sentinel; start on a disabled
instance yields the sentinel locker; end on the sentinel changes nothing;
unlock notification and instance destruction are total no-ops.  (Every
entry point of the model is a total function: none returns an error.) -/
theorem no_fatal_error_path (r : KeyRegistry) (cat n : String) (ident : Nat)
    (env : TimerEnv) (now now2 : Nat) (op : PSI_rwlock_operation)
    (thread : Nat) (rc : Int) (rwlock : PSI_rwlock)
    (hfull : ¬r.m_entries.length < r.m_max) (hnew : r.lookup cat n = none)
    (hdis : rwlock.m_enabled = false) :
    registerOne r cat n = (r, 0) ∧
    (init_rwlock 0 ident).m_enabled = false ∧
    start_rwlock_rdwait env now rwlock op thread = none ∧
    start_rwlock_wrwait env now rwlock op thread = none ∧
    end_rwlock_rdwait env now2 none rc rwlock = (rwlock, none) ∧
    end_rwlock_wrwait env now2 none rc rwlock = (rwlock, none) ∧
    unlock_rwlock rwlock = rwlock ∧
    destroy_rwlock rwlock = () := by
  refine ⟨?_, rfl, ?_, ?_, rfl, rfl, rfl, rfl⟩
  · simp [registerOne, hnew, hfull]
  · simp [start_rwlock_rdwait, hdis]
  · simp [start_rwlock_wrwait, start_rwlock_rdwait, hdis]

/-- Witness for C7 at concrete inputs: a full registry refuses a new name
with key 0 instead of failing. -/
theorem no_fatal_error_path_w :
    registerOne ⟨[("sql", "LOCK_a")], 1⟩ "sql" "LOCK_b" =
      (⟨[("sql", "LOCK_a")], 1⟩, 0) :=
  (no_fatal_error_path ⟨[("sql", "LOCK_a")], 1⟩ "sql" "LOCK_b" 9 sampleEnv 0 0
    .READLOCK 1 0 (init_rwlock 0 9) (by decide) (by decide) (by decide)).1

lemma end_step_max_le (env : TimerEnv) (now : Nat) (l : Locker) (rc : Int)
    (rwlock : PSI_rwlock) (op : PSI_rwlock_operation) (succ : Bool) :
    (rwlock.m_stats op succ).m_max ≤
      (((end_rwlock_rdwait env now (some l) rc rwlock).1).m_stats op succ).m_max := by
  rw [end_step_stats]
  by_cases h : op = l.state.m_operation ∧ succ = decide (rc = 0)
  · obtain ⟨h1, h2⟩ := h
    subst h1
    subst h2
    rw [if_pos ⟨rfl, rfl⟩]
    exact Nat.le_max_left _ _
  · rw [if_neg h]

lemma end_step_count (env : TimerEnv) (now : Nat) (l : Locker) (rc : Int)
    (rwlock : PSI_rwlock) (op : PSI_rwlock_operation) (succ : Bool) :
    (((end_rwlock_rdwait env now (some l) rc rwlock).1).m_stats op succ).m_count =
      (rwlock.m_stats op succ).m_count +
        (if l.state.m_operation = op ∧ decide (rc = 0) = succ then 1 else 0) := by
  rw [end_step_stats]
  by_cases h : op = l.state.m_operation ∧ succ = decide (rc = 0)
  · obtain ⟨h1, h2⟩ := h
    subst h1
    subst h2
    rw [if_pos ⟨rfl, rfl⟩, if_pos ⟨rfl, rfl⟩]
    rfl
  · rw [if_neg h, if_neg]
    · simp
    · intro hc
      exact h ⟨hc.1.symm, hc.2.symm⟩

/-- One sample recorded into its own bucket: a concrete completed call. -/
def sampleCall : EndCall := { locker := sampleLocker, rc := 0, now := 7 }

/-- A second completed call: a failing write wait. -/
def sampleCall2 : EndCall := { locker := sampleLocker2, rc := 1, now := 9 }

/-- C5: for every aggregate bucket, the max-duration counter is
monotonically non-decreasing across any sequence of completed end calls
(the initial instance is arbitrary, so this bounds every intermediate
step), and at the end it is greater than or equal to the elapsed time of
every individual sample routed into that bucket. -/
theorem bucket_max_monotone (env : TimerEnv) (rwlock : PSI_rwlock)
    (calls : List EndCall) (op : PSI_rwlock_operation) (succ : Bool) :
    (rwlock.m_stats op succ).m_max ≤
      ((end_many env rwlock calls).m_stats op succ).m_max ∧
    ∀ c ∈ calls, routesTo op succ c = true →
      elapsedOf env c ≤ ((end_many env rwlock calls).m_stats op succ).m_max := by
  induction calls generalizing rwlock with
  | nil => exact ⟨Nat.le_refl _, by simp⟩
  | cons c rest ih =>
      obtain ⟨ih1, ih2⟩ :=
        ih (end_rwlock_rdwait env c.now (some c.locker) c.rc rwlock).1
      have hstep := end_step_max_le env c.now c.locker c.rc rwlock op succ
      refine ⟨Nat.le_trans hstep ih1, ?_⟩
      intro c' hmem hroute
      rcases List.mem_cons.1 hmem with hc | hc
      · subst hc
        have hr : c'.locker.state.m_operation = op ∧ decide (c'.rc = 0) = succ := by
          simpa [routesTo] using hroute
        have hbump :
            elapsedOf env c' ≤
              (((end_rwlock_rdwait env c'.now (some c'.locker) c'.rc
                  rwlock).1).m_stats op succ).m_max := by
          rw [end_step_stats, if_pos ⟨hr.1.symm, hr.2.symm⟩]
          exact Nat.le_max_right _ _
        exact Nat.le_trans hbump ih1
      · exact ih2 c' hc hroute

/-- Witness for C5 at concrete inputs: the recorded read sample's elapsed
time bounds the read-success bucket's maximum from below. -/
theorem bucket_max_monotone_w :
    elapsedOf sampleEnv sampleCall ≤
      ((end_many sampleEnv sampleInstance [sampleCall]).m_stats
        PSI_rwlock_operation.READLOCK true).m_max :=
  (bucket_max_monotone sampleEnv sampleInstance [sampleCall]
    PSI_rwlock_operation.READLOCK true).2 sampleCall (by simp) (by decide)

/-- C6: for any sequence of completed end calls on one instance - i.e. for
any interleaving of the end calls of N concurrent threads, since each
counter update is atomic - the final count of every bucket equals its
initial count plus the number of end calls routed to that bucket: no
sample is lost or double-counted, and any two interleavings of the same
calls agree on every count. -/
theorem bucket_count_exact (env : TimerEnv) (rwlock : PSI_rwlock)
    (calls : List EndCall) (op : PSI_rwlock_operation) (succ : Bool) :
    ((end_many env rwlock calls).m_stats op succ).m_count =
      (rwlock.m_stats op succ).m_count +
        (calls.filter (routesTo op succ)).length ∧
    ∀ calls', calls.Perm calls' →
      ((end_many env rwlock calls').m_stats op succ).m_count =
        ((end_many env rwlock calls).m_stats op succ).m_count := by
  have main : ∀ (cs : List EndCall) (rw0 : PSI_rwlock),
      ((end_many env rw0 cs).m_stats op succ).m_count =
        (rw0.m_stats op succ).m_count + (cs.filter (routesTo op succ)).length := by
    intro cs
    induction cs with
    | nil => intro rw0; simp [end_many]
    | cons c rest ih =>
        intro rw0
        rw [end_many_cons, ih, end_step_count]
        by_cases hr : routesTo op succ c = true
        · have hc : c.locker.state.m_operation = op ∧ decide (c.rc = 0) = succ := by
            simpa [routesTo] using hr
          rw [List.filter_cons_of_pos hr, if_pos hc]
          simp
          omega
        · have hrf : routesTo op succ c = false := by
            simpa using hr
          have hc : ¬(c.locker.state.m_operation = op ∧ decide (c.rc = 0) = succ) := by
            simpa [routesTo] using hrf
          rw [List.filter_cons_of_neg (by simp [hrf]), if_neg hc]
          omega
  refine ⟨main calls rwlock, ?_⟩
  intro calls' hperm
  rw [main calls rwlock, main calls' rwlock,
    (hperm.filter (routesTo op succ)).length_eq]

/-- Witness for C6 at concrete inputs: swapping two concurrent completions
leaves the count unchanged. -/
theorem bucket_count_exact_w :
    ((end_many sampleEnv sampleInstance [sampleCall2, sampleCall]).m_stats
        PSI_rwlock_operation.READLOCK true).m_count =
      ((end_many sampleEnv sampleInstance [sampleCall, sampleCall2]).m_stats
        PSI_rwlock_operation.READLOCK true).m_count :=
  (bucket_count_exact sampleEnv sampleInstance [sampleCall, sampleCall2]
    PSI_rwlock_operation.READLOCK true).2 [sampleCall2, sampleCall]
    (List.Perm.swap sampleCall2 sampleCall [])

/-- C9: start captures into the locker state both the start tick and the
timer function itself, and the matching end computes the elapsed time with
the timer captured in the locker's own state - so even if the globally
configured timer changes between start and end (`env'` has the same timer
family but any configured timer), the sample is measured with the clock
that produced the start tick. -/
theorem end_uses_captured_timer (env env' : TimerEnv)
    (hfam : env'.m_timers = env.m_timers) (rwlock : PSI_rwlock)
    (henab : rwlock.m_enabled = true) (op : PSI_rwlock_operation)
    (thread : Nat) (now now' : Nat) (rc : Int) :
    ∃ l, start_rwlock_rdwait env now rwlock op thread = some l ∧
      l.state.m_timer = env.m_current ∧
      l.state.m_timer_start = env.m_timers env.m_current now ∧
      ((end_rwlock_rdwait env' now' (some l) rc rwlock).1).m_stats op
          (decide (rc = 0)) =
        (rwlock.m_stats op (decide (rc = 0))).record
          (env.m_timers env.m_current now' - env.m_timers env.m_current now) := by
  refine ⟨⟨⟨0, op, rwlock.m_identity, thread, env.m_timers env.m_current now,
    env.m_current, 0⟩, .WAITING⟩, ?_, rfl, rfl, ?_⟩
  · simp [start_rwlock_rdwait, henab]
  · rw [end_step_stats, if_pos ⟨rfl, rfl⟩]
    simp [hfam]

/-- Witness for C9 at concrete inputs: the configured timer changes from
timer 0 to timer 3 between start and end; the elapsed time still comes
from timer 0. -/
theorem end_uses_captured_timer_w :
    ∃ l, start_rwlock_rdwait sampleEnv 3 sampleInstance
        PSI_rwlock_operation.READLOCK 1 = some l ∧
      l.state.m_timer = sampleEnv.m_current ∧
      l.state.m_timer_start = sampleEnv.m_timers sampleEnv.m_current 3 ∧
      ((end_rwlock_rdwait sampleEnv2 9 (some l) 0 sampleInstance).1).m_stats
          PSI_rwlock_operation.READLOCK (decide ((0 : Int) = 0)) =
        (sampleInstance.m_stats PSI_rwlock_operation.READLOCK
            (decide ((0 : Int) = 0))).record
          (sampleEnv.m_timers sampleEnv.m_current 9 -
            sampleEnv.m_timers sampleEnv.m_current 3) :=
  end_uses_captured_timer sampleEnv sampleEnv2 rfl sampleInstance (by decide)
    PSI_rwlock_operation.READLOCK 1 3 9 0

/-- C10: the only caller-visible effect of registration on the info
records is filling in each record's key slot: the name, flags, volatility
and documentation of every record are returned unchanged, in order. -/
theorem register_rwlock_frame (r : KeyRegistry) (cat : String)
    (infos : List PSI_rwlock_info_v1) :
    ((register_rwlock r cat infos).2).map (fun i => i.m_name) =
      infos.map (fun i => i.m_name) ∧
    ((register_rwlock r cat infos).2).map (fun i => i.m_flags) =
      infos.map (fun i => i.m_flags) ∧
    ((register_rwlock r cat infos).2).map (fun i => i.m_volatility) =
      infos.map (fun i => i.m_volatility) ∧
    ((register_rwlock r cat infos).2).map (fun i => i.m_documentation) =
      infos.map (fun i => i.m_documentation) := by
  induction infos generalizing r with
  | nil => simp [register_rwlock]
  | cons info rest ih =>
      obtain ⟨h1, h2, h3, h4⟩ := ih (registerOne r cat info.m_name).1
      simp [register_rwlock, h1, h2, h3, h4]

end PsiRwlock
